import Mathlib

/-
Verification of the Maya node-wrapper layer (src/python/ma/node.py):
the identity wrapper Node, the type-tagging subclass System, and the
Factory registry that resolves a tag attribute back to a class.

The external scene graph (Maya) is modelled as an explicit state value
(Scene).  Python classes are modelled by the record PyClass carrying the
data the code reads off a class (its name, its _NODETYPE and its
DEFAULT_NAME); the dynamic subclass graph is a finite tree (ClassTree).
Python exceptions are values of PyExc; fallible operations return
Except PyExc.  Wrapper instances are NodeInst values: the class of the
instance together with the uuid string it was initialised with
(Node derives from str and holds the uuid).
-/

set_option autoImplicit false

namespace MaNode

/-- Data the source reads from a Python class object: __name__,
the _NODETYPE class variable and the DEFAULT_NAME class variable. -/
structure PyClass where
  name : String
  nodetype : String
  defaultName : String
  deriving DecidableEq

/-- The base System class: name "System", _NODETYPE "transform"
(inherited from Node), DEFAULT_NAME "grp" (inherited from Node). -/
def SystemCls : PyClass :=
  { name := "System", nodetype := "transform", defaultName := "grp" }

/-- The reserved tag attribute name (SYSTEM_TYPE_ATTR_NAME in the source). -/
def SYSTEM_TYPE_ATTR_NAME : String := "system_type"

/-- An external (Maya) node: persistent uuid, current name
(namespace prefix included), node type, and string attributes. -/
structure ExtNode where
  uuid : String
  name : String
  ntype : String
  attrs : List (String × String)
  deriving DecidableEq

/-- One file written by export: the path, the effective options and the
names that were selected when the file was written. -/
structure ExportRecord where
  filename : String
  settings : List (String × String)
  exported : List String
  deriving DecidableEq

/-- Modelled from the spec: the external Scene Graph Service state.  It
stores nodes, the set of existing namespaces, the current selection and
the files written so far; nextId feeds the fresh-uuid generator of the
service. -/
structure Scene where
  nodes : List ExtNode
  namespaces : List String
  selection : List String
  exports : List ExportRecord
  nextId : Nat
  deriving DecidableEq

/-- Python exception values, tagged with the Python exception class. -/
inductive PyExc where
  | runtimeError (msg : String)
  | referenceError (msg : String)
  | valueError (msg : String)
  | indexError (msg : String)
  | attributeError (msg : String)
  deriving DecidableEq

/-- A Node (or System) wrapper instance: its concrete Python class and
the uuid string the str-derived instance holds. -/
structure NodeInst where
  cls : PyClass
  uuid : String
  deriving DecidableEq

/-- Modelled from the spec: resolve(name_or_id) of the external service,
used by the repository helper name_to_node (not under src/).  A name
match is preferred; otherwise the reference is tried as a uuid; null
when nothing matches. -/
def name_to_node (s : Scene) (ref : String) : Option ExtNode :=
  match s.nodes.find? (fun e => e.name == ref) with
  | some e => some e
  | none => s.nodes.find? (fun e => e.uuid == ref)

/-- Node.__new__: resolve the value to an external node; if it does not
exist return None, else return an instance holding the uuid. -/
def Node.new (cls : PyClass) (s : Scene) (ref : String) : Option NodeInst :=
  match name_to_node s ref with
  | some e => some { cls := cls, uuid := e.uuid }
  | none => none

/-- Node.__eq__: equal class and equal str conversion (uuid). -/
def Node.eq (a b : NodeInst) : Bool :=
  a.cls == b.cls && a.uuid == b.uuid

/-- Node.__hash__: hash of str(self), i.e. of the uuid. -/
def Node.hashOf (n : NodeInst) : UInt64 :=
  hash n.uuid

/-- Message of the error raised by the Node.fn property when the cached
depend node is no longer valid. -/
def staleMsg (n : NodeInst) : String :=
  "Invalid depend node. " ++ n.cls.name ++ "(" ++ n.uuid ++ ") not found"

/-- Node.fn: validate the cached handle against the external graph
(MObjectHandle.isValid, modelled as presence of the uuid in the scene);
return the function set (here: the external record) or raise
RuntimeError. -/
def Node.fn (s : Scene) (n : NodeInst) : Except PyExc ExtNode :=
  match s.nodes.find? (fun e => e.uuid == n.uuid) with
  | some e => Except.ok e
  | none => Except.error (PyExc.runtimeError (staleMsg n))

/-- Split a character list on the colon separator (str.split of
Python, specialised to the namespace separator). -/
def splitOnColon : List Char → List (List Char)
  | [] => [[]]
  | c :: rest =>
    match splitOnColon rest with
    | [] => [[]]
    | h :: t => if c = ':' then [] :: h :: t else (c :: h) :: t

/-- Join character lists with the colon separator. -/
def joinColon : List (List Char) → List Char
  | [] => []
  | [l] => l
  | l :: rest => l ++ ':' :: joinColon rest

/-- The membership test of Python: colon in name. -/
def hasColon (nm : String) : Bool :=
  nm.data.any (fun c => c == ':')

/-- The last-character test of Python: name ends with the separator. -/
def endsColon (nm : String) : Bool :=
  match nm.data.getLast? with
  | some c => c == ':'
  | none => false

/-- Namespace portion of a node name: everything before the last colon,
empty when there is none (fn.namespace of the external service, and
name.rsplit of Python). -/
def nsOf (nm : String) : String :=
  String.mk (joinColon ((splitOnColon nm.data).dropLast))

/-- Node.get_name: current name of the external node (via Node.fn). -/
def Node.get_name (s : Scene) (n : NodeInst) : Except PyExc String :=
  match Node.fn s n with
  | Except.ok e => Except.ok e.name
  | Except.error err => Except.error err

/-- Node.namespace getter: self.fn.namespace. -/
def Node.namespaceGet (s : Scene) (n : NodeInst) : Except PyExc String :=
  match Node.fn s n with
  | Except.ok e => Except.ok (nsOf e.name)
  | Except.error err => Except.error err

/-- Node.nodename: self.fn.name(), the node name without any DAG path
(the model stores no DAG paths, so this is the stored name). -/
def Node.nodename (s : Scene) (n : NodeInst) : Except PyExc String :=
  match Node.fn s n with
  | Except.ok e => Except.ok e.name
  | Except.error err => Except.error err

/-- First scene node carrying a given name (how cmds resolves a plain
name argument). -/
def findByName (s : Scene) (nm : String) : Option ExtNode :=
  s.nodes.find? (fun e => e.name == nm)

/-- Value of an attribute on an external node, none when absent. -/
def attrGet (e : ExtNode) (k : String) : Option String :=
  match e.attrs.find? (fun p => p.1 == k) with
  | some p => some p.2
  | none => none

/-- Write an attribute value on an external node record. -/
def setAttrOn (e : ExtNode) (k v : String) : ExtNode :=
  { e with attrs := (e.attrs.filter (fun p => p.1 != k)) ++ [(k, v)] }

/-- System.type getter: cmds.getAttr on self.name dot system_type. -/
def System.typeGet (s : Scene) (n : NodeInst) : Except PyExc String :=
  match Node.fn s n with
  | Except.error err => Except.error err
  | Except.ok e =>
    match findByName s e.name with
    | none => Except.error (PyExc.valueError ("No object matches name: " ++ e.name))
    | some e2 =>
      match attrGet e2 SYSTEM_TYPE_ATTR_NAME with
      | some v => Except.ok v
      | none => Except.error (PyExc.valueError ("getAttr: attribute not found on " ++ e.name))

/-- Modelled from the spec: list_namespace_contents of the external
service (cmds.namespaceInfo with ls): node names in the namespace plus
child namespaces. -/
def namespaceContents (s : Scene) (ns : String) : List String :=
  (s.nodes.filter (fun e => nsOf e.name == ns)).map (fun e => e.name)
    ++ s.namespaces.filter (fun m => nsOf m == ns)

/-- Modelled from the spec: delete_node of the external service
(cmds.delete by name); every node carrying the name is removed. -/
def cmds_delete (s : Scene) (nm : String) : Except PyExc Scene :=
  match findByName s nm with
  | none => Except.error (PyExc.valueError ("No object matches name: " ++ nm))
  | some _ => Except.ok { s with nodes := s.nodes.filter (fun e => e.name != nm) }

/-- Modelled from the spec: remove_namespace of the external service
(cmds.namespace with rm, no content move: only called when empty). -/
def cmds_namespace_rm (s : Scene) (ns : String) : Scene :=
  { s with namespaces := s.namespaces.filter (fun m => m != ns) }

/-- Node.delete: read the namespace, delete the external node by name,
then remove the namespace when it became empty. -/
def Node.delete (s : Scene) (n : NodeInst) : Except PyExc Scene :=
  match Node.fn s n with
  | Except.error err => Except.error err
  | Except.ok e =>
    let ns := nsOf e.name
    match cmds_delete s e.name with
    | Except.error err => Except.error err
    | Except.ok s1 =>
      if ns != "" && (namespaceContents s1 ns).isEmpty then
        Except.ok (cmds_namespace_rm s1 ns)
      else
        Except.ok s1

/-- Default options of Node.export before the caller override:
preserve references on, Maya ascii format. -/
def defaultExportSettings : List (String × String) :=
  [("pr", "1"), ("typ", "mayaAscii")]

/-- Python dict.update semantics on an association list: entries of the
second list override entries of the first with the same key. -/
def dictUpdate (d kw : List (String × String)) : List (String × String) :=
  d.filter (fun p => !(kw.find? (fun q => q.1 == p.1)).isSome) ++ kw

/-- Lookup in an association list (first match wins, as in dict). -/
def dictLookup (d : List (String × String)) (k : String) : Option String :=
  match d.find? (fun p => p.1 == k) with
  | some p => some p.2
  | none => none

/-- Node.export under the KeepSel decorator.  Modelled from the spec:
KeepSel (repository code not under src/) captures the external
selection before the body and restores it on every exit path.  The
body selects this node, merges the caller options over the defaults
and writes the selection to the file. -/
def Node.export (s : Scene) (n : NodeInst) (filename : String)
    (kwargs : List (String × String)) : Except PyExc Unit × Scene :=
  let saved := s.selection
  match Node.fn s n with
  | Except.error err => (Except.error err, { s with selection := saved })
  | Except.ok e =>
    let s1 := { s with selection := [e.name] }
    let settings := dictUpdate defaultExportSettings kwargs
    let rec1 : ExportRecord :=
      { filename := filename, settings := settings, exported := s1.selection }
    let s2 := { s1 with exports := s1.exports ++ [rec1] }
    (Except.ok (), { s2 with selection := saved })

/-- Rename the prefix of a name that lives under namespace old so that
it lives under newFull instead. -/
def nsMove (old newFull nm : String) : String :=
  if (old.data ++ [':']).isPrefixOf nm.data then
    String.mk (newFull.data ++ ':' :: nm.data.drop (old.data.length + 1))
  else nm

/-- Modelled from the spec: rename_namespace of the external service
(cmds.namespace with ren and optional parent): the namespace and all
its content move under the new name. -/
def cmds_namespace_ren (s : Scene) (old new_ par : String) : Scene :=
  let newFull := if par == "" then new_ else par ++ ":" ++ new_
  { s with
    nodes := s.nodes.map (fun e => { e with name := nsMove old newFull e.name }),
    namespaces := s.namespaces.map (fun m =>
      if m == old then newFull else nsMove old newFull m) }

/-- Modelled from the spec: move_namespace of the external service
(cmds.namespace with mv): the content of the first namespace is merged
into the second, which already exists. -/
def cmds_namespace_mv (s : Scene) (src dst : String) : Scene :=
  { s with
    nodes := s.nodes.map (fun e => { e with name := nsMove src dst e.name }),
    namespaces := s.namespaces.map (fun m => nsMove src dst m) }

/-- Modelled from the spec: create_namespace of the external service
(cmds.namespace with add). -/
def cmds_namespace_add (s : Scene) (ns : String) : Scene :=
  { s with namespaces :=
      if s.namespaces.contains ns then s.namespaces else s.namespaces ++ [ns] }

/-- Modelled from the spec: remove_namespace moving content to the root
(cmds.namespace with rm and mnr). -/
def cmds_namespace_rm_mnr (s : Scene) (ns : String) : Scene :=
  { s with
    nodes := s.nodes.map (fun e =>
      if (ns.data ++ [':']).isPrefixOf e.name.data then
        { e with name := String.mk (e.name.data.drop (ns.data.length + 1)) }
      else e),
    namespaces := (s.namespaces.filter (fun m => m != ns)).map (fun m =>
      if (ns.data ++ [':']).isPrefixOf m.data then
        String.mk (m.data.drop (ns.data.length + 1))
      else m) }

/-- Last component of a colon separated name (rsplit of Python). -/
def lastComp (nm : String) : String :=
  match (splitOnColon nm.data).getLast? with
  | some l => String.mk l
  | none => nm

/-- Node.namespace setter.  When the node has a namespace: a target that
exists is merged into; a nested target has its parent created first and
the current namespace renamed under it; a plain target is a namespace
rename; an empty target removes the namespace moving content to the
root.  When the node has no namespace nothing happens. -/
def Node.namespaceSet (s : Scene) (n : NodeInst) (value : String) : Except PyExc Scene :=
  match Node.namespaceGet s n with
  | Except.error err => Except.error err
  | Except.ok ns =>
    if ns != "" then
      if value != "" then
        if s.namespaces.contains value then
          Except.ok (cmds_namespace_mv s ns value)
        else if hasColon value then
          let par := nsOf value
          let v := lastComp value
          let s1 := if s.namespaces.contains par then s else cmds_namespace_add s par
          match Node.namespaceGet s1 n with
          | Except.error err => Except.error err
          | Except.ok ns2 => Except.ok (cmds_namespace_ren s1 ns2 v par)
        else
          match Node.namespaceGet s n with
          | Except.error err => Except.error err
          | Except.ok ns2 => Except.ok (cmds_namespace_ren s ns2 value "")
      else
        Except.ok (cmds_namespace_rm_mnr s ns)
    else
      Except.ok s

/-- True when some scene node already carries the name. -/
def nameTaken (s : Scene) (nm : String) : Bool :=
  s.nodes.any (fun e => e.name == nm)

/-- Modelled from the spec: name-clash resolution of the external
service: the requested name if free, else the first indexed variant
that is free. -/
def freshName (s : Scene) (base : String) : String :=
  if nameTaken s base then
    match (List.range (s.nodes.length + 1)).find?
        (fun i => !nameTaken s (base ++ toString (i + 1))) with
    | some i => base ++ toString (i + 1)
    | none => base
  else base

/-- Modelled from the spec: the persistent identifier issued by the
external service for a newly created node. -/
def freshUuid (s : Scene) : String :=
  "uuid" ++ toString s.nextId

/-- Modelled from the spec: rename_node of the external service
(cmds.rename): the node resolved by the old name takes the new name,
clash-resolved against the other nodes. -/
def cmds_rename (s : Scene) (old new_ : String) : Except PyExc Scene :=
  match findByName s old with
  | none => Except.error (PyExc.valueError ("No object matches name: " ++ old))
  | some e =>
    let others : Scene := { s with nodes := s.nodes.filter (fun x => x != e) }
    let resolved := freshName others new_
    let nodes2 := s.nodes.map (fun x => if x == e then { x with name := resolved } else x)
    Except.ok { s with nodes := nodes2 }

/-- Tail of Node.rename after the namespace adjustment: index the last
character of the value (IndexError on an empty string), append
DEFAULT_NAME when the value ends with the separator, then rename the
external node under its re-read current name. -/
def renameFinish (s1 : Scene) (n : NodeInst) (value : String) : Except PyExc Scene :=
  if value == "" then
    Except.error (PyExc.indexError "string index out of range")
  else
    let value2 := if endsColon value then value ++ n.cls.defaultName else value
    match Node.fn s1 n with
    | Except.error err => Except.error err
    | Except.ok e2 => cmds_rename s1 e2.name value2

/-- Node.rename (the name property setter): adjust the namespace first
when the current name has one, then rename the external node. -/
def Node.rename (s : Scene) (n : NodeInst) (value : String) : Except PyExc Scene :=
  match Node.fn s n with
  | Except.error err => Except.error err
  | Except.ok e =>
    let step1 : Except PyExc Scene :=
      if hasColon e.name then
        if hasColon value then
          Node.namespaceSet s n (nsOf value)
        else
          Node.namespaceSet s n ""
      else
        Except.ok s
    match step1 with
    | Except.error err => Except.error err
    | Except.ok s1 => renameFinish s1 n value

/-- Modelled from the spec: name resolution of cmds.ls (names and
identities both match). -/
def cmds_ls (s : Scene) (ref : String) : List String :=
  (s.nodes.filter (fun e => e.name == ref || e.uuid == ref)).map (fun e => e.name)

/-- Requested node name of Node.create before clash resolution: the
argument, or _NODETYPE when absent or empty, with DEFAULT_NAME appended
when it ends with the namespace separator. -/
def baseName (cls : PyClass) (nameArg : Option String) : String :=
  let nm := match nameArg with
    | none => cls.nodetype
    | some x => if x == "" then cls.nodetype else x
  if endsColon nm then nm ++ cls.defaultName else nm

/-- Modelled from the spec: create_node of the external service
(cmds.createNode): a fresh node of the given type with a clash-resolved
name and a fresh uuid; an implied namespace is recorded. -/
def cmds_createNode (s : Scene) (ntype nm : String) : Scene × String :=
  let resolved := freshName s nm
  let e : ExtNode := { uuid := freshUuid s, name := resolved, ntype := ntype, attrs := [] }
  let ns := nsOf resolved
  ({ s with
      nodes := s.nodes ++ [e],
      namespaces := if ns == "" || s.namespaces.contains ns then s.namespaces
                    else s.namespaces ++ [ns],
      nextId := s.nextId + 1 }, resolved)

/-- Body of Node.create once the parent is resolved: create the
external node under the requested name and bind an instance to it by
name. -/
def createBody (cls : PyClass) (s : Scene) (nameArg : Option String) :
    Option NodeInst × Scene :=
  let (s1, root) := cmds_createNode s cls.nodetype (baseName cls nameArg)
  (Node.new cls s1 root, s1)

/-- Node.create: resolve the parent (IndexError when it does not
exist), compute the requested name, create the external node and
return an instance bound to it by name. -/
def Node.create (cls : PyClass) (s : Scene) (nameArg parent : Option String) :
    Except PyExc (Option NodeInst × Scene) :=
  match parent with
  | none => Except.ok (createBody cls s nameArg)
  | some p =>
    if (cmds_ls s p).isEmpty then
      Except.error (PyExc.indexError "list index out of range")
    else Except.ok (createBody cls s nameArg)

/-- Node.serialize: the minimal data to rebuild the class, an ordered
mapping with the class name under the key type. -/
def Node.serialize (n : NodeInst) : List (String × String) :=
  [("type", n.cls.name)]

/-- add_system_attr: ensure the tag attribute exists on the node
resolved by name and set its value (attributeQuery, addAttr, setAttr
collapse to an upsert of the string value). -/
def add_system_attr (s : Scene) (obj value : String) : Except PyExc Scene :=
  match findByName s obj with
  | none => Except.error (PyExc.valueError ("No object matches name: " ++ obj))
  | some _ =>
    Except.ok { s with nodes := s.nodes.map (fun e =>
      if e.name == obj then setAttrOn e SYSTEM_TYPE_ATTR_NAME value else e) }

/-- Tail of System.create after Node.create returned: create_attributes
tags the node (resolved by its current name) with the class name; a
None instance surfaces as an AttributeError. -/
def systemCreateFinish (cls : PyClass) (pair : Option NodeInst × Scene) :
    Except PyExc (NodeInst × Scene) :=
  match pair with
  | (none, _) =>
    Except.error (PyExc.attributeError "NoneType object has no attribute create_attributes")
  | (some n, s1) =>
    match Node.fn s1 n with
    | Except.error err => Except.error err
    | Except.ok e =>
      match add_system_attr s1 e.name cls.name with
      | Except.error err => Except.error err
      | Except.ok s2 => Except.ok (n, s2)

/-- System.create: Node.create, then create_attributes. -/
def System.create (cls : PyClass) (s : Scene) (nameArg parent : Option String) :
    Except PyExc (NodeInst × Scene) :=
  match Node.create cls s nameArg parent with
  | Except.error err => Except.error err
  | Except.ok pair => systemCreateFinish cls pair

/-- Node.deserialize for a System subclass: equivalent to create. -/
def System.deserialize (cls : PyClass) (s : Scene) (nameArg parent : Option String) :
    Except PyExc (NodeInst × Scene) :=
  System.create cls s nameArg parent

/-- System.type setter: cmds.setAttr of the tag attribute on the node
resolved by the current name. -/
def System.typeSet (s : Scene) (n : NodeInst) (value : String) : Except PyExc Scene :=
  match Node.fn s n with
  | Except.error err => Except.error err
  | Except.ok e =>
    match findByName s e.name with
    | none => Except.error (PyExc.valueError ("No object matches name: " ++ e.name))
    | some _ =>
      Except.ok { s with nodes := s.nodes.map (fun x =>
        if x.name == e.name then setAttrOn x SYSTEM_TYPE_ATTR_NAME value else x) }


/-- The Factory registry: an insertion-ordered mapping from class name
to class (a Python dict). -/
def Registry : Type := List (String × PyClass)

/-- Dict assignment: overwrite any entry under the key, else append. -/
def dictSet (f : Registry) (k : String) (v : PyClass) : Registry :=
  (List.filter (fun p => p.1 != k) f) ++ [(k, v)]

/-- Dict lookup without a default. -/
def dictGet? (f : Registry) (k : String) : Option PyClass :=
  match List.find? (fun p => p.1 == k) f with
  | some p => some p.2
  | none => none

mutual
/-- A snapshot of the loaded Python class graph below one class: the
class itself with its direct subclasses as subtrees. -/
inductive ClassTree where
  | node : PyClass → ClassForest → ClassTree
/-- A list of subclass trees (the result of __subclasses__). -/
inductive ClassForest where
  | nil : ClassForest
  | cons : ClassTree → ClassForest → ClassForest
end

/-- The class at the root of a tree. -/
def rootOf : ClassTree → PyClass
  | ClassTree.node c _ => c

mutual
/-- Factory.register: insert the class under its name, then register
every direct subclass recursively. -/
def Factory.register (f : Registry) : ClassTree → Registry
  | ClassTree.node c subs => Factory.registerForest (dictSet f c.name c) subs
/-- Register every tree of a forest, left to right. -/
def Factory.registerForest (f : Registry) : ClassForest → Registry
  | ClassForest.nil => f
  | ClassForest.cons t ts => Factory.registerForest (Factory.register f t) ts
end

mutual
/-- All class names in a tree, root first. -/
def treeNames : ClassTree → List String
  | ClassTree.node c subs => c.name :: forestNames subs
/-- All class names in a forest. -/
def forestNames : ClassForest → List String
  | ClassForest.nil => []
  | ClassForest.cons t ts => treeNames t ++ forestNames ts
end

mutual
/-- Membership of a class in a tree (the class and every direct or
indirect subclass). -/
def treeMem (b : PyClass) : ClassTree → Bool
  | ClassTree.node c subs => b == c || forestMem b subs
/-- Membership of a class in a forest. -/
def forestMem (b : PyClass) : ClassForest → Bool
  | ClassForest.nil => false
  | ClassForest.cons t ts => treeMem b t || forestMem b ts
end

/-- Factory.get_system_class: resolve the reference to an external
node; none when it does not exist or has no tag attribute; else the
registry entry of the tag, defaulting to the base System class. -/
def Factory.get_system_class (f : Registry) (s : Scene) (ref : String) : Option PyClass :=
  match name_to_node s ref with
  | none => none
  | some e =>
    match attrGet e SYSTEM_TYPE_ATTR_NAME with
    | none => none
    | some tag =>
      match dictGet? f tag with
      | some c => some c
      | none => some SystemCls

/-- Factory.get_system: resolve the class, then construct it on the
reference; none when no class was resolved. -/
def Factory.get_system (f : Registry) (s : Scene) (ref : String) : Option NodeInst :=
  match Factory.get_system_class f s ref with
  | none => none
  | some c => Node.new c s ref

/-! Helper lemmas. -/

theorem find?_name_none (s : Scene) (nm : String) (hfree : nameTaken s nm = false) :
    s.nodes.find? (fun e => e.name == nm) = none := by
  rw [List.find?_eq_none]
  intro x hx hpx
  apply absurd hfree
  rw [Bool.not_eq_false, nameTaken, List.any_eq_true]
  exact ⟨x, hx, hpx⟩

theorem fn_find (s : Scene) (n : NodeInst) (e : ExtNode)
    (h : Node.fn s n = Except.ok e) :
    s.nodes.find? (fun x => x.uuid == n.uuid) = some e := by
  unfold Node.fn at h
  cases hf : s.nodes.find? (fun x => x.uuid == n.uuid) with
  | some e2 => rw [hf] at h; cases h; rfl
  | none => rw [hf] at h; cases h

theorem fn_mem (s : Scene) (n : NodeInst) (e : ExtNode)
    (h : Node.fn s n = Except.ok e) : e ∈ s.nodes ∧ e.uuid = n.uuid := by
  have hf := fn_find s n e h
  refine ⟨List.mem_of_find?_eq_some hf, ?_⟩
  have := List.find?_some hf
  simpa using this

/-! C1 -/

/-- C1: get_system_class returns none for a reference resolving to no
node, none for a node without the tag attribute, the registered class
for a registered tag, and the base System class for an unregistered
tag; it never raises for an unknown tag. -/
theorem get_system_class_resolution
    (f : Registry) (s : Scene) (r1 r2 r3 r4 : String)
    (e2 e3 e4 : ExtNode) (tag3 tag4 : String) (c3 : PyClass)
    (h1 : name_to_node s r1 = none)
    (h2 : name_to_node s r2 = some e2)
    (h2a : attrGet e2 SYSTEM_TYPE_ATTR_NAME = none)
    (h3 : name_to_node s r3 = some e3)
    (h3a : attrGet e3 SYSTEM_TYPE_ATTR_NAME = some tag3)
    (h3b : dictGet? f tag3 = some c3)
    (h4 : name_to_node s r4 = some e4)
    (h4a : attrGet e4 SYSTEM_TYPE_ATTR_NAME = some tag4)
    (h4b : dictGet? f tag4 = none) :
    Factory.get_system_class f s r1 = none ∧
    Factory.get_system_class f s r2 = none ∧
    Factory.get_system_class f s r3 = some c3 ∧
    Factory.get_system_class f s r4 = some SystemCls := by
  refine ⟨?_, ?_, ?_, ?_⟩ <;>
    simp [Factory.get_system_class, h1, h2, h2a, h3, h3a, h3b, h4, h4a, h4b]

/-- Witness scene for C1: a missing reference, a plain node, a node
tagged with a registered tag and a node tagged with an unknown tag. -/
theorem get_system_class_resolution_witness :
    Factory.get_system_class [("Rig", PyClass.mk "Rig" "transform" "grp")]
      (Scene.mk
        [ExtNode.mk "u2" "plain" "transform" [],
         ExtNode.mk "u3" "sys" "transform" [("system_type", "Rig")],
         ExtNode.mk "u4" "odd" "transform" [("system_type", "Ghost")]]
        [] [] [] 9) "nothing" = none ∧
    Factory.get_system_class [("Rig", PyClass.mk "Rig" "transform" "grp")]
      (Scene.mk
        [ExtNode.mk "u2" "plain" "transform" [],
         ExtNode.mk "u3" "sys" "transform" [("system_type", "Rig")],
         ExtNode.mk "u4" "odd" "transform" [("system_type", "Ghost")]]
        [] [] [] 9) "plain" = none ∧
    Factory.get_system_class [("Rig", PyClass.mk "Rig" "transform" "grp")]
      (Scene.mk
        [ExtNode.mk "u2" "plain" "transform" [],
         ExtNode.mk "u3" "sys" "transform" [("system_type", "Rig")],
         ExtNode.mk "u4" "odd" "transform" [("system_type", "Ghost")]]
        [] [] [] 9) "sys" = some (PyClass.mk "Rig" "transform" "grp") ∧
    Factory.get_system_class [("Rig", PyClass.mk "Rig" "transform" "grp")]
      (Scene.mk
        [ExtNode.mk "u2" "plain" "transform" [],
         ExtNode.mk "u3" "sys" "transform" [("system_type", "Rig")],
         ExtNode.mk "u4" "odd" "transform" [("system_type", "Ghost")]]
        [] [] [] 9) "odd" = some SystemCls :=
  get_system_class_resolution _ _ _ _ _ _
    (ExtNode.mk "u2" "plain" "transform" [])
    (ExtNode.mk "u3" "sys" "transform" [("system_type", "Rig")])
    (ExtNode.mk "u4" "odd" "transform" [("system_type", "Ghost")])
    "Rig" "Ghost" (PyClass.mk "Rig" "transform" "grp")
    (by decide) (by decide) (by decide) (by decide) (by decide) (by decide)
    (by decide) (by decide) (by decide)

/-! C2 -/

/-- C2: Node equality holds exactly for equal concrete class and equal
identity; it is reflexive, symmetric and transitive, and two wrappers
of different classes on the same identity are unequal. -/
theorem node_eq_equivalence
    (a b c d e : NodeInst)
    (hab : Node.eq a b = true) (hbc : Node.eq b c = true)
    (hcls : d.cls ≠ e.cls) (huuid : d.uuid = e.uuid) :
    (∀ x : NodeInst, Node.eq x x = true) ∧
    (∀ x y : NodeInst, Node.eq x y = true ↔ Node.eq y x = true) ∧
    Node.eq a c = true ∧
    Node.eq d e = false ∧
    (∀ x y : NodeInst, Node.eq x y = true ↔ x.cls = y.cls ∧ x.uuid = y.uuid) := by
  have key : ∀ x y : NodeInst, Node.eq x y = true ↔ x.cls = y.cls ∧ x.uuid = y.uuid := by
    intro x y
    simp [Node.eq]
  refine ⟨?_, ?_, ?_, ?_, key⟩
  · intro x
    rw [key]
    exact ⟨rfl, rfl⟩
  · intro x y
    rw [key, key]
    constructor
    · rintro ⟨h1, h2⟩; exact ⟨h1.symm, h2.symm⟩
    · rintro ⟨h1, h2⟩; exact ⟨h1.symm, h2.symm⟩
  · rw [key] at hab hbc ⊢
    exact ⟨hab.1.trans hbc.1, hab.2.trans hbc.2⟩
  · have hne : ¬ Node.eq d e = true := by
      rw [key]
      rintro ⟨h1, _⟩
      exact hcls h1
    simpa using hne

/-- Witness for C2 on concrete instances: three equal wrappers and a
pair of different classes sharing the identity. -/
theorem node_eq_equivalence_witness :
    (∀ x : NodeInst, Node.eq x x = true) ∧
    (∀ x y : NodeInst, Node.eq x y = true ↔ Node.eq y x = true) ∧
    Node.eq (NodeInst.mk SystemCls "u0") (NodeInst.mk SystemCls "u0") = true ∧
    Node.eq (NodeInst.mk SystemCls "u0") (NodeInst.mk (PyClass.mk "Rig" "transform" "grp") "u0") = false ∧
    (∀ x y : NodeInst, Node.eq x y = true ↔ x.cls = y.cls ∧ x.uuid = y.uuid) :=
  node_eq_equivalence
    (NodeInst.mk SystemCls "u0") (NodeInst.mk SystemCls "u0") (NodeInst.mk SystemCls "u0")
    (NodeInst.mk SystemCls "u0") (NodeInst.mk (PyClass.mk "Rig" "transform" "grp") "u0")
    (by decide) (by decide) (by decide) (by decide)

/-! C9 -/

/-- C9: constructing a Node from a reference that resolves to no
existing external node returns none and raises nothing; an instance is
returned exactly when a node matching the reference exists. -/
theorem node_new_existence
    (cls : PyClass) (s : Scene) (r1 r2 : String)
    (h1 : s.nodes.any (fun e => e.name == r1 || e.uuid == r1) = false)
    (h2 : s.nodes.any (fun e => e.name == r2 || e.uuid == r2) = true) :
    Node.new cls s r1 = none ∧ (Node.new cls s r2).isSome = true := by
  constructor
  · have hname : s.nodes.find? (fun e => e.name == r1) = none := by
      rw [List.find?_eq_none]
      intro x hx hpx
      apply absurd h1
      rw [Bool.not_eq_false, List.any_eq_true]
      exact ⟨x, hx, by simp [hpx]⟩
    have huuid : s.nodes.find? (fun e => e.uuid == r1) = none := by
      rw [List.find?_eq_none]
      intro x hx hpx
      apply absurd h1
      rw [Bool.not_eq_false, List.any_eq_true]
      exact ⟨x, hx, by simp [hpx]⟩
    simp [Node.new, name_to_node, hname, huuid]
  · rw [List.any_eq_true] at h2
    obtain ⟨x, hx, hpx⟩ := h2
    cases hn : s.nodes.find? (fun e => e.name == r2) with
    | some e => simp [Node.new, name_to_node, hn]
    | none =>
      have hxname : (x.name == r2) = false := by
        rw [List.find?_eq_none] at hn
        have := hn x hx
        simpa using this
      have hxuuid : (x.uuid == r2) = true := by
        rw [hxname] at hpx
        simpa using hpx
      cases hu : s.nodes.find? (fun e => e.uuid == r2) with
      | some e => simp [Node.new, name_to_node, hn, hu]
      | none =>
        rw [List.find?_eq_none] at hu
        exact absurd hxuuid (by simpa using hu x hx)

/-- Witness for C9: a one-node scene, one dangling reference and one
reference that resolves. -/
theorem node_new_existence_witness :
    Node.new SystemCls
      (Scene.mk [ExtNode.mk "u0" "duck" "transform" []] [] [] [] 1) "ghost" = none ∧
    (Node.new SystemCls
      (Scene.mk [ExtNode.mk "u0" "duck" "transform" []] [] [] [] 1) "duck").isSome = true :=
  node_new_existence SystemCls
    (Scene.mk [ExtNode.mk "u0" "duck" "transform" []] [] [] [] 1)
    "ghost" "duck" (by decide) (by decide)

/-! C10 -/

/-- C10: assigning any value to the namespace property of a live node
whose name has no namespace leaves the scene unchanged. -/
theorem namespace_set_noop
    (s : Scene) (n : NodeInst) (e : ExtNode) (v : String)
    (hlive : Node.fn s n = Except.ok e)
    (hns : nsOf e.name = "") :
    Node.namespaceSet s n v = Except.ok s := by
  unfold Node.namespaceSet Node.namespaceGet
  rw [hlive]
  simp [hns]

/-- Witness for C10: a namespace assignment on a node without a
namespace returns the scene untouched. -/
theorem namespace_set_noop_witness :
    Node.namespaceSet
      (Scene.mk [ExtNode.mk "u0" "duck" "transform" []] ["other"] [] [] 1)
      (NodeInst.mk SystemCls "u0") "target:deep" =
      Except.ok (Scene.mk [ExtNode.mk "u0" "duck" "transform" []] ["other"] [] [] 1) :=
  namespace_set_noop
    (Scene.mk [ExtNode.mk "u0" "duck" "transform" []] ["other"] [] [] 1)
    (NodeInst.mk SystemCls "u0")
    (ExtNode.mk "u0" "duck" "transform" []) "target:deep"
    rfl (by decide)

/-! C8 -/

/-- Lookup after a dict update: the override wins, else the base. -/
theorem dictLookup_update (d kw : List (String × String)) (k : String) :
    dictLookup (dictUpdate d kw) k =
      match dictLookup kw k with
      | some v => some v
      | none => dictLookup d k := by
  induction d with
  | nil =>
    simp only [dictUpdate, List.filter_nil, List.nil_append]
    cases hk : dictLookup kw k <;> simp [dictLookup] at hk ⊢ <;> simp [hk]
  | cons p d' ih =>
    simp only [dictUpdate, List.filter_cons]
    by_cases hp : (kw.find? (fun q => q.1 == p.1)).isSome
    · rw [if_neg (by simp [hp])]
      by_cases hpk : p.1 = k
      · subst hpk
        rw [Option.isSome_iff_exists] at hp
        obtain ⟨q, hq⟩ := hp
        have hq1 : q.1 = p.1 := by simpa using List.find?_some hq
        have hkw : dictLookup kw p.1 = some q.2 := by
          simp [dictLookup, hq]
        rw [dictUpdate] at ih
        rw [ih, hkw]
      · have hcons : dictLookup (p :: d') k = dictLookup d' k := by
          simp [dictLookup, List.find?_cons, beq_iff_eq, hpk]
        rw [dictUpdate] at ih
        rw [ih, hcons]
    · rw [if_pos (by simp [hp])]
      rw [List.cons_append]
      have hfold : List.filter (fun r => !(List.find? (fun q => q.1 == r.1) kw).isSome) d' ++ kw
          = dictUpdate d' kw := rfl
      rw [hfold]
      have hkwnone : kw.find? (fun q => q.1 == p.1) = none :=
        Option.not_isSome_iff_eq_none.mp hp
      by_cases hpk : p.1 = k
      · subst hpk
        have hkwk : dictLookup kw p.1 = none := by
          simp [dictLookup, hkwnone]
        have hl : dictLookup (p :: (dictUpdate d' kw)) p.1 = some p.2 := by
          simp [dictLookup, List.find?_cons]
        have hr : dictLookup (p :: d') p.1 = some p.2 := by
          simp [dictLookup, List.find?_cons]
        rw [hl, hkwk, hr]
      · have hl : dictLookup (p :: (dictUpdate d' kw)) k = dictLookup (dictUpdate d' kw) k := by
          simp [dictLookup, List.find?_cons, beq_iff_eq, hpk]
        have hr : dictLookup (p :: d') k = dictLookup d' k := by
          simp [dictLookup, List.find?_cons, beq_iff_eq, hpk]
        rw [hl, ih, hr]

/-- C8: export restores the external selection on both exit paths (the
success path and the stale-failure path), the node is the selection
written to the file, and the default options preserve-references and
ascii format are each overridable by the caller. -/
theorem export_restores_selection
    (s sd : Scene) (n : NodeInst) (e : ExtNode) (fname fnamed : String)
    (kwargs : List (String × String)) (err : PyExc)
    (hlive : Node.fn s n = Except.ok e)
    (hdead : Node.fn sd n = Except.error err) :
    (Node.export s n fname kwargs).2.selection = s.selection ∧
    (Node.export sd n fnamed kwargs).2.selection = sd.selection ∧
    (Node.export sd n fnamed kwargs).1 = Except.error err ∧
    (Node.export sd n fnamed kwargs).2.exports = sd.exports ∧
    (Node.export s n fname kwargs).2.exports = s.exports ++
      [ExportRecord.mk fname (dictUpdate defaultExportSettings kwargs) [e.name]] ∧
    dictLookup (dictUpdate defaultExportSettings kwargs) "pr" =
      some ((dictLookup kwargs "pr").getD "1") ∧
    dictLookup (dictUpdate defaultExportSettings kwargs) "typ" =
      some ((dictLookup kwargs "typ").getD "mayaAscii") := by
  refine ⟨?_, ?_, ?_, ?_, ?_, ?_, ?_⟩
  · unfold Node.export
    rw [hlive]
  · unfold Node.export
    rw [hdead]
  · unfold Node.export
    rw [hdead]
  · unfold Node.export
    rw [hdead]
  · unfold Node.export
    rw [hlive]
  · rw [dictLookup_update]
    cases hk : dictLookup kwargs "pr" <;> simp only [hk, Option.getD] <;> decide
  · rw [dictLookup_update]
    cases hk : dictLookup kwargs "typ" <;> simp only [hk, Option.getD] <;> decide

/-- Witness for C8: a live scene with a selection, a dead scene, and an
override of the format option. -/
theorem export_restores_selection_witness :
    (Node.export
      (Scene.mk [ExtNode.mk "u0" "duck" "transform" []] [] ["sel1", "sel2"] [] 1)
      (NodeInst.mk SystemCls "u0") "out.ma" [("typ", "mayaBinary")]).2.selection =
      ["sel1", "sel2"] ∧
    (Node.export (Scene.mk [] [] ["keep"] [] 0)
      (NodeInst.mk SystemCls "u0") "out2.ma" [("typ", "mayaBinary")]).2.selection = ["keep"] ∧
    (Node.export (Scene.mk [] [] ["keep"] [] 0)
      (NodeInst.mk SystemCls "u0") "out2.ma" [("typ", "mayaBinary")]).1 =
      Except.error (PyExc.runtimeError (staleMsg (NodeInst.mk SystemCls "u0"))) ∧
    (Node.export (Scene.mk [] [] ["keep"] [] 0)
      (NodeInst.mk SystemCls "u0") "out2.ma" [("typ", "mayaBinary")]).2.exports = [] ∧
    (Node.export
      (Scene.mk [ExtNode.mk "u0" "duck" "transform" []] [] ["sel1", "sel2"] [] 1)
      (NodeInst.mk SystemCls "u0") "out.ma" [("typ", "mayaBinary")]).2.exports =
      [] ++ [ExportRecord.mk "out.ma"
        (dictUpdate defaultExportSettings [("typ", "mayaBinary")]) ["duck"]] ∧
    dictLookup (dictUpdate defaultExportSettings [("typ", "mayaBinary")]) "pr" =
      some ((dictLookup [("typ", "mayaBinary")] "pr").getD "1") ∧
    dictLookup (dictUpdate defaultExportSettings [("typ", "mayaBinary")]) "typ" =
      some ((dictLookup [("typ", "mayaBinary")] "typ").getD "mayaAscii") :=
  export_restores_selection
    (Scene.mk [ExtNode.mk "u0" "duck" "transform" []] [] ["sel1", "sel2"] [] 1)
    (Scene.mk [] [] ["keep"] [] 0)
    (NodeInst.mk SystemCls "u0") (ExtNode.mk "u0" "duck" "transform" [])
    "out.ma" "out2.ma" [("typ", "mayaBinary")]
    (PyExc.runtimeError (staleMsg (NodeInst.mk SystemCls "u0")))
    rfl rfl

/-! C3 -/

/-- True exactly on a Python ReferenceError value. -/
def isReferenceError {α : Type} : Except PyExc α → Bool
  | Except.error (PyExc.referenceError _) => true
  | _ => false

/-- Counterexample for C3 as stated: on a deleted node the stale
failure the code raises is a RuntimeError, not an error of the
ReferenceError class. -/
theorem stale_error_class_cex :
    Node.get_name (Scene.mk [] [] [] [] 0) (NodeInst.mk SystemCls "u0") =
      Except.error (PyExc.runtimeError (staleMsg (NodeInst.mk SystemCls "u0"))) ∧
    isReferenceError
      (Node.get_name (Scene.mk [] [] [] [] 0) (NodeInst.mk SystemCls "u0")) = false := by
  constructor
  · rfl
  · rfl

/-- C3 (amended): after the external node is gone, every derived
property or method that needs a live node (name, namespace, nodename,
type, delete, export) raises the stale failure, a RuntimeError naming
the class and identity; while the node is live none of them raises it. -/
theorem stale_access_raises
    (s sd : Scene) (n : NodeInst) (e : ExtNode)
    (fname : String) (kwargs : List (String × String))
    (hlive : Node.fn s n = Except.ok e)
    (hdead : sd.nodes.find? (fun x => x.uuid == n.uuid) = none) :
    (Node.get_name sd n = Except.error (PyExc.runtimeError (staleMsg n)) ∧
     Node.namespaceGet sd n = Except.error (PyExc.runtimeError (staleMsg n)) ∧
     Node.nodename sd n = Except.error (PyExc.runtimeError (staleMsg n)) ∧
     System.typeGet sd n = Except.error (PyExc.runtimeError (staleMsg n)) ∧
     Node.delete sd n = Except.error (PyExc.runtimeError (staleMsg n)) ∧
     (Node.export sd n fname kwargs).1 = Except.error (PyExc.runtimeError (staleMsg n))) ∧
    (Node.get_name s n ≠ Except.error (PyExc.runtimeError (staleMsg n)) ∧
     Node.namespaceGet s n ≠ Except.error (PyExc.runtimeError (staleMsg n)) ∧
     Node.nodename s n ≠ Except.error (PyExc.runtimeError (staleMsg n)) ∧
     System.typeGet s n ≠ Except.error (PyExc.runtimeError (staleMsg n)) ∧
     Node.delete s n ≠ Except.error (PyExc.runtimeError (staleMsg n)) ∧
     (Node.export s n fname kwargs).1 ≠ Except.error (PyExc.runtimeError (staleMsg n))) := by
  have hfned : Node.fn sd n = Except.error (PyExc.runtimeError (staleMsg n)) := by
    unfold Node.fn
    rw [hdead]
  have hmem := fn_mem s n e hlive
  constructor
  · refine ⟨?_, ?_, ?_, ?_, ?_, ?_⟩
    · unfold Node.get_name; rw [hfned]
    · unfold Node.namespaceGet; rw [hfned]
    · unfold Node.nodename; rw [hfned]
    · unfold System.typeGet; rw [hfned]
    · unfold Node.delete; rw [hfned]
    · unfold Node.export; rw [hfned]
  · have hfind : findByName s e.name ≠ none := by
      intro hnone
      rw [findByName, List.find?_eq_none] at hnone
      exact hnone e hmem.1 (by simp)
    refine ⟨?_, ?_, ?_, ?_, ?_, ?_⟩
    · unfold Node.get_name; rw [hlive]; simp
    · unfold Node.namespaceGet; rw [hlive]; simp
    · unfold Node.nodename; rw [hlive]; simp
    · unfold System.typeGet
      rw [hlive]
      cases hb : findByName s e.name with
      | none => exact absurd hb hfind
      | some e2 =>
        cases ha : attrGet e2 SYSTEM_TYPE_ATTR_NAME with
        | some v => simp [hb, ha]
        | none => simp [hb, ha]
    · unfold Node.delete
      rw [hlive]
      dsimp only
      cases hd : cmds_delete s e.name with
      | error err =>
        unfold cmds_delete at hd
        cases hb : findByName s e.name with
        | none => exact absurd hb hfind
        | some e2 => rw [hb] at hd; cases hd
      | ok s1 =>
        dsimp only
        split <;> simp
    · unfold Node.export
      rw [hlive]
      simp

/-- Witness for C3 (amended): the duck node live in one scene and
absent from the other. -/
theorem stale_access_raises_witness :
    (Node.get_name (Scene.mk [] [] [] [] 1) (NodeInst.mk SystemCls "u0") =
      Except.error (PyExc.runtimeError (staleMsg (NodeInst.mk SystemCls "u0"))) ∧
     Node.namespaceGet (Scene.mk [] [] [] [] 1) (NodeInst.mk SystemCls "u0") =
      Except.error (PyExc.runtimeError (staleMsg (NodeInst.mk SystemCls "u0"))) ∧
     Node.nodename (Scene.mk [] [] [] [] 1) (NodeInst.mk SystemCls "u0") =
      Except.error (PyExc.runtimeError (staleMsg (NodeInst.mk SystemCls "u0"))) ∧
     System.typeGet (Scene.mk [] [] [] [] 1) (NodeInst.mk SystemCls "u0") =
      Except.error (PyExc.runtimeError (staleMsg (NodeInst.mk SystemCls "u0"))) ∧
     Node.delete (Scene.mk [] [] [] [] 1) (NodeInst.mk SystemCls "u0") =
      Except.error (PyExc.runtimeError (staleMsg (NodeInst.mk SystemCls "u0"))) ∧
     (Node.export (Scene.mk [] [] [] [] 1) (NodeInst.mk SystemCls "u0") "out.ma" []).1 =
      Except.error (PyExc.runtimeError (staleMsg (NodeInst.mk SystemCls "u0")))) ∧
    (Node.get_name
        (Scene.mk [ExtNode.mk "u0" "duck" "transform" [("system_type", "System")]] [] [] [] 1)
        (NodeInst.mk SystemCls "u0") ≠
      Except.error (PyExc.runtimeError (staleMsg (NodeInst.mk SystemCls "u0"))) ∧
     Node.namespaceGet
        (Scene.mk [ExtNode.mk "u0" "duck" "transform" [("system_type", "System")]] [] [] [] 1)
        (NodeInst.mk SystemCls "u0") ≠
      Except.error (PyExc.runtimeError (staleMsg (NodeInst.mk SystemCls "u0"))) ∧
     Node.nodename
        (Scene.mk [ExtNode.mk "u0" "duck" "transform" [("system_type", "System")]] [] [] [] 1)
        (NodeInst.mk SystemCls "u0") ≠
      Except.error (PyExc.runtimeError (staleMsg (NodeInst.mk SystemCls "u0"))) ∧
     System.typeGet
        (Scene.mk [ExtNode.mk "u0" "duck" "transform" [("system_type", "System")]] [] [] [] 1)
        (NodeInst.mk SystemCls "u0") ≠
      Except.error (PyExc.runtimeError (staleMsg (NodeInst.mk SystemCls "u0"))) ∧
     Node.delete
        (Scene.mk [ExtNode.mk "u0" "duck" "transform" [("system_type", "System")]] [] [] [] 1)
        (NodeInst.mk SystemCls "u0") ≠
      Except.error (PyExc.runtimeError (staleMsg (NodeInst.mk SystemCls "u0"))) ∧
     (Node.export
        (Scene.mk [ExtNode.mk "u0" "duck" "transform" [("system_type", "System")]] [] [] [] 1)
        (NodeInst.mk SystemCls "u0") "out.ma" []).1 ≠
      Except.error (PyExc.runtimeError (staleMsg (NodeInst.mk SystemCls "u0")))) :=
  stale_access_raises
    (Scene.mk [ExtNode.mk "u0" "duck" "transform" [("system_type", "System")]] [] [] [] 1)
    (Scene.mk [] [] [] [] 1)
    (NodeInst.mk SystemCls "u0")
    (ExtNode.mk "u0" "duck" "transform" [("system_type", "System")])
    "out.ma" [] rfl rfl

/-! C5 -/

/-- Lookup after assignment under the same key. -/
theorem dictGet?_set_self (f : Registry) (k : String) (v : PyClass) :
    dictGet? (dictSet f k v) k = some v := by
  unfold dictGet? dictSet
  rw [List.find?_append]
  have h1 : List.find? (fun p => p.1 == k) (List.filter (fun p => p.1 != k) f) = none := by
    rw [List.find?_eq_none]
    intro x hx
    have hkeep := List.of_mem_filter hx
    simp only [bne_iff_ne, ne_eq] at hkeep
    simp [hkeep]
  rw [h1]
  simp

/-- Finding with a predicate the filter never removes. -/
theorem find?_filter_stable {α : Type} (l : List α) (p q : α → Bool)
    (h : ∀ x, p x = true → q x = true) :
    (l.filter q).find? p = l.find? p := by
  induction l with
  | nil => rfl
  | cons x l' ih =>
    by_cases hq : q x = true
    · rw [List.filter_cons_of_pos hq, List.find?_cons, List.find?_cons]
      cases hp : p x <;> simp [hp, ih]
    · have hp : p x = false := by
        cases hp : p x with
        | true => exact absurd (h x hp) hq
        | false => rfl
      rw [List.filter_cons_of_neg (by simp [hq]), List.find?_cons, hp, ih]

/-- Lookup after assignment under a different key. -/
theorem dictGet?_set_other (f : Registry) (k k' : String) (v : PyClass) (h : k' ≠ k) :
    dictGet? (dictSet f k v) k' = dictGet? f k' := by
  unfold dictGet? dictSet
  rw [List.find?_append]
  have h1 : (List.filter (fun p => p.1 != k) f).find? (fun p => p.1 == k') =
      f.find? (fun p => p.1 == k') := by
    apply find?_filter_stable
    intro x hx
    have hx' : x.1 = k' := by simpa using hx
    simp [hx', h]
  have h2 : List.find? (fun p => p.1 == k') [(k, v)] = none := by
    simp [List.find?_cons, Ne.symm h]
  rw [h1, h2]
  cases f.find? (fun p => p.1 == k') <;> rfl

mutual
/-- Registering a tree leaves bindings outside its names untouched. -/
theorem register_preserve : ∀ (f : Registry) (k : String) (t : ClassTree),
    k ∉ treeNames t → dictGet? (Factory.register f t) k = dictGet? f k
  | f, k, ClassTree.node c subs, h => by
    have hkc : k ≠ c.name := by
      intro hh
      exact h (by rw [treeNames, hh]; exact List.mem_cons_self _ _)
    have hks : k ∉ forestNames subs := by
      intro hh
      exact h (by rw [treeNames]; exact List.mem_cons_of_mem _ hh)
    rw [Factory.register]
    rw [registerForest_preserve (dictSet f c.name c) k subs hks]
    exact dictGet?_set_other f c.name k c hkc
/-- Registering a forest leaves bindings outside its names untouched. -/
theorem registerForest_preserve : ∀ (f : Registry) (k : String) (ts : ClassForest),
    k ∉ forestNames ts → dictGet? (Factory.registerForest f ts) k = dictGet? f k
  | _, _, ClassForest.nil, _ => rfl
  | f, k, ClassForest.cons t ts, h => by
    have h1 : k ∉ treeNames t := by
      intro hh
      exact h (by rw [forestNames]; exact List.mem_append_left _ hh)
    have h2 : k ∉ forestNames ts := by
      intro hh
      exact h (by rw [forestNames]; exact List.mem_append_right _ hh)
    rw [Factory.registerForest]
    rw [registerForest_preserve (Factory.register f t) k ts h2]
    exact register_preserve f k t h1
end

mutual
/-- A member of a tree contributes its name to the tree names. -/
theorem treeMem_name : ∀ (b : PyClass) (t : ClassTree),
    treeMem b t = true → b.name ∈ treeNames t
  | b, ClassTree.node c subs, h => by
    rw [treeMem, Bool.or_eq_true, beq_iff_eq] at h
    rw [treeNames]
    rcases h with h | h
    · rw [h]
      exact List.mem_cons_self _ _
    · exact List.mem_cons_of_mem _ (forestMem_name b subs h)
/-- A member of a forest contributes its name to the forest names. -/
theorem forestMem_name : ∀ (b : PyClass) (ts : ClassForest),
    forestMem b ts = true → b.name ∈ forestNames ts
  | b, ClassForest.nil, h => by rw [forestMem] at h; cases h
  | b, ClassForest.cons t ts, h => by
    rw [forestMem, Bool.or_eq_true] at h
    rw [forestNames]
    rcases h with h | h
    · exact List.mem_append_left _ (treeMem_name b t h)
    · exact List.mem_append_right _ (forestMem_name b ts h)
end

mutual
/-- After registering a tree with distinct names, every member class is
bound under its own name. -/
theorem register_mem : ∀ (f : Registry) (b : PyClass) (t : ClassTree),
    (treeNames t).Nodup → treeMem b t = true →
    dictGet? (Factory.register f t) b.name = some b
  | f, b, ClassTree.node c subs, hnd, hmem => by
    rw [treeNames, List.nodup_cons] at hnd
    obtain ⟨hc_not, hnd'⟩ := hnd
    rw [treeMem, Bool.or_eq_true, beq_iff_eq] at hmem
    rw [Factory.register]
    rcases hmem with hbc | hmem
    · subst hbc
      rw [registerForest_preserve (dictSet f b.name b) b.name subs hc_not]
      exact dictGet?_set_self f b.name b
    · exact registerForest_mem (dictSet f c.name c) b subs hnd' hmem
/-- After registering a forest with distinct names, every member class
is bound under its own name. -/
theorem registerForest_mem : ∀ (f : Registry) (b : PyClass) (ts : ClassForest),
    (forestNames ts).Nodup → forestMem b ts = true →
    dictGet? (Factory.registerForest f ts) b.name = some b
  | _, b, ClassForest.nil, _, hmem => by rw [forestMem] at hmem; cases hmem
  | f, b, ClassForest.cons t ts, hnd, hmem => by
    rw [forestNames, List.nodup_append] at hnd
    obtain ⟨hnd1, hnd2, hdisj⟩ := hnd
    rw [forestMem, Bool.or_eq_true] at hmem
    rw [Factory.registerForest]
    rcases hmem with hmem | hmem
    · have hname : b.name ∈ treeNames t := treeMem_name b t hmem
      have hnot : b.name ∉ forestNames ts := fun hh => hdisj hname hh
      rw [registerForest_preserve (Factory.register f t) b.name ts hnot]
      exact register_mem f b t hnd1 hmem
    · exact registerForest_mem (Factory.register f t) b ts hnd2 hmem
end

/-- C5: register(A) binds A under its name and recursively binds every
loaded direct and indirect subclass under its own name (when the names
in the hierarchy are distinct, as Factory keys are); re-registering a
root already present overwrites its entry with the root. -/
theorem register_registers_subtree
    (f g : Registry) (t : ClassTree) (b : PyClass)
    (hnd : (treeNames t).Nodup) (hmem : treeMem b t = true) :
    dictGet? (Factory.register f t) b.name = some b ∧
    dictGet? (Factory.register g t) (rootOf t).name = some (rootOf t) := by
  constructor
  · exact register_mem f b t hnd hmem
  · apply register_mem g (rootOf t) t hnd
    cases t with
    | node c subs => rw [rootOf, treeMem, Bool.or_eq_true, beq_iff_eq]; exact Or.inl rfl

/-- Witness for C5: a three-class hierarchy System, Rig below it, Leg
below Rig, registered into a registry holding a stale System entry. -/
theorem register_registers_subtree_witness :
    dictGet? (Factory.register [("System", PyClass.mk "System" "locator" "old")]
      (ClassTree.node SystemCls
        (ClassForest.cons
          (ClassTree.node (PyClass.mk "Rig" "transform" "grp")
            (ClassForest.cons (ClassTree.node (PyClass.mk "Leg" "joint" "grp") ClassForest.nil)
              ClassForest.nil))
          ClassForest.nil)))
      (PyClass.mk "Leg" "joint" "grp").name = some (PyClass.mk "Leg" "joint" "grp") ∧
    dictGet? (Factory.register [("System", PyClass.mk "System" "locator" "old")]
      (ClassTree.node SystemCls
        (ClassForest.cons
          (ClassTree.node (PyClass.mk "Rig" "transform" "grp")
            (ClassForest.cons (ClassTree.node (PyClass.mk "Leg" "joint" "grp") ClassForest.nil)
              ClassForest.nil))
          ClassForest.nil)))
      (rootOf (ClassTree.node SystemCls
        (ClassForest.cons
          (ClassTree.node (PyClass.mk "Rig" "transform" "grp")
            (ClassForest.cons (ClassTree.node (PyClass.mk "Leg" "joint" "grp") ClassForest.nil)
              ClassForest.nil))
          ClassForest.nil))).name =
      some (rootOf (ClassTree.node SystemCls
        (ClassForest.cons
          (ClassTree.node (PyClass.mk "Rig" "transform" "grp")
            (ClassForest.cons (ClassTree.node (PyClass.mk "Leg" "joint" "grp") ClassForest.nil)
              ClassForest.nil))
          ClassForest.nil))) :=
  register_registers_subtree
    [("System", PyClass.mk "System" "locator" "old")]
    [("System", PyClass.mk "System" "locator" "old")]
    (ClassTree.node SystemCls
      (ClassForest.cons
        (ClassTree.node (PyClass.mk "Rig" "transform" "grp")
          (ClassForest.cons (ClassTree.node (PyClass.mk "Leg" "joint" "grp") ClassForest.nil)
            ClassForest.nil))
        ClassForest.nil))
    (PyClass.mk "Leg" "joint" "grp")
    (by decide) (by decide)

/-! Execution shape of System.create on a scene where the requested
name is free and the issued uuid is fresh. -/

theorem find?_uuid_none (s : Scene) (u : String) (h : ∀ x ∈ s.nodes, x.uuid ≠ u) :
    s.nodes.find? (fun e => e.uuid == u) = none := by
  rw [List.find?_eq_none]
  intro x hx
  simp [h x hx]

theorem node_create_ok (C : PyClass) (s : Scene) (nameArg parent : Option String)
    (pair : Option NodeInst × Scene)
    (h : Node.create C s nameArg parent = Except.ok pair) :
    pair = createBody C s nameArg := by
  unfold Node.create at h
  cases parent with
  | none => cases h; rfl
  | some p =>
    by_cases hl : (cmds_ls s p).isEmpty
    · simp [hl] at h
    · simp only [hl, Bool.false_eq_true, if_false] at h
      cases h; rfl

theorem system_create_shape
    (C : PyClass) (s : Scene) (nameArg parent : Option String) (n : NodeInst) (s' : Scene)
    (hfree : nameTaken s (baseName C nameArg) = false)
    (hfreshU : ∀ x ∈ s.nodes, x.uuid ≠ freshUuid s)
    (h : System.create C s nameArg parent = Except.ok (n, s')) :
    n = NodeInst.mk C (freshUuid s) ∧
    s'.nodes = s.nodes ++ [ExtNode.mk (freshUuid s) (baseName C nameArg) C.nodetype
      [(SYSTEM_TYPE_ATTR_NAME, C.name)]] := by
  have hbase : freshName s (baseName C nameArg) = baseName C nameArg := by
    simp [freshName, hfree]
  unfold System.create at h
  cases hcr : Node.create C s nameArg parent with
  | error err => rw [hcr] at h; cases h
  | ok pair =>
    rw [hcr] at h
    have hpair := node_create_ok C s nameArg parent pair hcr
    subst hpair
    unfold createBody cmds_createNode at h
    rw [hbase] at h
    dsimp only at h
    rw [show Node.new C
        (Scene.mk (s.nodes ++ [ExtNode.mk (freshUuid s) (baseName C nameArg) C.nodetype []])
          (if (nsOf (baseName C nameArg) == "" || s.namespaces.contains (nsOf (baseName C nameArg)))
            then s.namespaces else s.namespaces ++ [nsOf (baseName C nameArg)])
          s.selection s.exports (s.nextId + 1))
        (baseName C nameArg) =
        some (NodeInst.mk C (freshUuid s)) from ?_] at h
    · unfold systemCreateFinish at h
      dsimp only at h
      rw [show Node.fn
          (Scene.mk (s.nodes ++ [ExtNode.mk (freshUuid s) (baseName C nameArg) C.nodetype []])
            (if (nsOf (baseName C nameArg) == "" || s.namespaces.contains (nsOf (baseName C nameArg)))
              then s.namespaces else s.namespaces ++ [nsOf (baseName C nameArg)])
            s.selection s.exports (s.nextId + 1))
          (NodeInst.mk C (freshUuid s)) =
          Except.ok (ExtNode.mk (freshUuid s) (baseName C nameArg) C.nodetype []) from ?_] at h
      · unfold add_system_attr findByName at h
        dsimp only at h
        rw [List.find?_append, find?_name_none s (baseName C nameArg) hfree] at h
        rw [show List.find? (fun e => e.name == baseName C nameArg)
            [ExtNode.mk (freshUuid s) (baseName C nameArg) C.nodetype []] =
            some (ExtNode.mk (freshUuid s) (baseName C nameArg) C.nodetype []) from by
          simp [List.find?_cons]] at h
        rw [List.map_append] at h
        rw [show List.map (fun e => if e.name == baseName C nameArg
              then setAttrOn e SYSTEM_TYPE_ATTR_NAME C.name else e) s.nodes = s.nodes from by
          have : ∀ e ∈ s.nodes, (if e.name == baseName C nameArg
              then setAttrOn e SYSTEM_TYPE_ATTR_NAME C.name else e) = e := by
            intro e he
            have hne : (e.name == baseName C nameArg) = false := by
              by_contra hcon
              rw [Bool.not_eq_false, beq_iff_eq] at hcon
              apply absurd hfree
              rw [Bool.not_eq_false, nameTaken, List.any_eq_true]
              exact ⟨e, he, by simp [hcon]⟩
            rw [hne]
            rfl
          rw [List.map_congr_left this, List.map_id']] at h
        dsimp only [Option.or] at h
        cases h
        constructor
        · rfl
        · simp [setAttrOn, SYSTEM_TYPE_ATTR_NAME]
      · unfold Node.fn
        dsimp only
        rw [List.find?_append, find?_uuid_none s (freshUuid s) hfreshU]
        simp [List.find?_cons]
    · unfold Node.new name_to_node
      dsimp only
      rw [List.find?_append, find?_name_none s (baseName C nameArg) hfree]
      simp [List.find?_cons]

/-! C7 -/

/-- C7: System.create makes an external node of the configured type
(the type name when the name argument is absent, the default suffix
appended when the name ends with the separator) and the created node
carries the reserved tag attribute with the class name as value. -/
theorem system_create_tags
    (C : PyClass) (s : Scene) (nameArg parent : Option String) (n : NodeInst) (s' : Scene)
    (x : String)
    (hfree : nameTaken s (baseName C nameArg) = false)
    (hfreshU : ∀ y ∈ s.nodes, y.uuid ≠ freshUuid s)
    (h : System.create C s nameArg parent = Except.ok (n, s'))
    (ht : endsColon C.nodetype = false)
    (hx : x ≠ "") (hxc : endsColon x = true) :
    n.cls = C ∧
    (∃ e, e ∈ s'.nodes ∧ e.uuid = n.uuid ∧ e.ntype = C.nodetype ∧
      e.name = baseName C nameArg ∧ attrGet e SYSTEM_TYPE_ATTR_NAME = some C.name) ∧
    baseName C none = C.nodetype ∧
    baseName C (some x) = x ++ C.defaultName := by
  obtain ⟨hn, hnodes⟩ := system_create_shape C s nameArg parent n s' hfree hfreshU h
  subst hn
  refine ⟨rfl, ?_, ?_, ?_⟩
  · refine ⟨ExtNode.mk (freshUuid s) (baseName C nameArg) C.nodetype
      [(SYSTEM_TYPE_ATTR_NAME, C.name)], ?_, rfl, rfl, rfl, ?_⟩
    · rw [hnodes]
      exact List.mem_append_right _ (List.mem_singleton.mpr rfl)
    · simp [attrGet, List.find?_cons]
  · simp [baseName, ht]
  · have hx' : (x == "") = false := by simp [hx]
    simp [baseName, hx', hxc]

/-- Witness for C7: creating the duck System in an empty scene. -/
theorem system_create_tags_witness :
    (NodeInst.mk SystemCls "uuid0").cls = SystemCls ∧
    (∃ e, e ∈ (Scene.mk
        [ExtNode.mk "uuid0" "duck" "transform" [("system_type", "System")]]
        [] [] [] 1).nodes ∧
      e.uuid = (NodeInst.mk SystemCls "uuid0").uuid ∧ e.ntype = SystemCls.nodetype ∧
      e.name = baseName SystemCls (some "duck") ∧
      attrGet e SYSTEM_TYPE_ATTR_NAME = some SystemCls.name) ∧
    baseName SystemCls none = SystemCls.nodetype ∧
    baseName SystemCls (some "ns:") = "ns:" ++ SystemCls.defaultName :=
  system_create_tags SystemCls (Scene.mk [] [] [] [] 0) (some "duck") none
    (NodeInst.mk SystemCls "uuid0")
    (Scene.mk [ExtNode.mk "uuid0" "duck" "transform" [("system_type", "System")]] [] [] [] 1)
    "ns:" rfl (by simp) rfl rfl (by decide) rfl

/-! C6 -/

/-- C6: a node created (or deserialized) through a registered System
subclass is recovered by Factory.get_system from its identity as an
equal instance of the same class, and get_system returns none whenever
get_system_class resolves no class. -/
theorem get_system_roundtrip
    (f : Registry) (C : PyClass) (s s' s2 : Scene) (nameArg parent : Option String)
    (n : NodeInst) (r2 : String)
    (hreg : dictGet? f C.name = some C)
    (hfree : nameTaken s (baseName C nameArg) = false)
    (hfreshU : ∀ x ∈ s.nodes, x.uuid ≠ freshUuid s ∧ x.name ≠ freshUuid s)
    (h : System.deserialize C s nameArg parent = Except.ok (n, s'))
    (hnone : Factory.get_system_class f s2 r2 = none) :
    (∃ m, Factory.get_system f s' n.uuid = some m ∧ Node.eq n m = true ∧ m.cls = C) ∧
    Node.serialize n = [("type", C.name)] ∧
    Factory.get_system f s2 r2 = none := by
  rw [System.deserialize] at h
  obtain ⟨hn, hnodes⟩ := system_create_shape C s nameArg parent n s' hfree
    (fun x hx => (hfreshU x hx).1) h
  subst hn
  have hfindname : s.nodes.find? (fun e => e.name == freshUuid s) = none := by
    rw [List.find?_eq_none]
    intro x hx
    simp [(hfreshU x hx).2]
  have hfinduuid : s.nodes.find? (fun e => e.uuid == freshUuid s) = none :=
    find?_uuid_none s (freshUuid s) (fun x hx => (hfreshU x hx).1)
  have hresolve : name_to_node s' (freshUuid s) =
      some (ExtNode.mk (freshUuid s) (baseName C nameArg) C.nodetype
        [(SYSTEM_TYPE_ATTR_NAME, C.name)]) := by
    unfold name_to_node
    rw [hnodes, List.find?_append, hfindname]
    by_cases hbn : baseName C nameArg = freshUuid s
    · simp [List.find?_cons, hbn]
    · rw [show List.find? (fun e => e.name == freshUuid s)
          [ExtNode.mk (freshUuid s) (baseName C nameArg) C.nodetype
            [(SYSTEM_TYPE_ATTR_NAME, C.name)]] = none from by simp [List.find?_cons, hbn]]
      rw [List.find?_append, hfinduuid]
      simp [List.find?_cons]
  refine ⟨?_, rfl, ?_⟩
  · refine ⟨NodeInst.mk C (freshUuid s), ?_, by simp [Node.eq], rfl⟩
    have hattr : attrGet (ExtNode.mk (freshUuid s) (baseName C nameArg) C.nodetype
        [(SYSTEM_TYPE_ATTR_NAME, C.name)]) SYSTEM_TYPE_ATTR_NAME = some C.name := by
      simp [attrGet, List.find?_cons]
    unfold Factory.get_system Factory.get_system_class Node.new
    simp only [hresolve, hattr, hreg]
  · unfold Factory.get_system
    rw [hnone]

/-- Witness for C6: the duck System deserialized into an empty scene
with the base registry, plus a dangling reference in an empty scene. -/
theorem get_system_roundtrip_witness :
    (∃ m, Factory.get_system [("System", SystemCls)]
        (Scene.mk [ExtNode.mk "uuid0" "duck" "transform" [("system_type", "System")]]
          [] [] [] 1)
        (NodeInst.mk SystemCls "uuid0").uuid = some m ∧
      Node.eq (NodeInst.mk SystemCls "uuid0") m = true ∧ m.cls = SystemCls) ∧
    Node.serialize (NodeInst.mk SystemCls "uuid0") = [("type", SystemCls.name)] ∧
    Factory.get_system [("System", SystemCls)] (Scene.mk [] [] [] [] 0) "ghost" = none :=
  get_system_roundtrip [("System", SystemCls)] SystemCls
    (Scene.mk [] [] [] [] 0)
    (Scene.mk [ExtNode.mk "uuid0" "duck" "transform" [("system_type", "System")]] [] [] [] 1)
    (Scene.mk [] [] [] [] 0)
    (some "duck") none (NodeInst.mk SystemCls "uuid0") "ghost"
    rfl rfl (by simp) rfl rfl

/-! C4 -/

theorem uuids_ns_ren (s : Scene) (a b p : String) :
    (cmds_namespace_ren s a b p).nodes.map ExtNode.uuid = s.nodes.map ExtNode.uuid := by
  unfold cmds_namespace_ren
  dsimp only
  rw [List.map_map]
  rfl

theorem uuids_ns_mv (s : Scene) (a b : String) :
    (cmds_namespace_mv s a b).nodes.map ExtNode.uuid = s.nodes.map ExtNode.uuid := by
  unfold cmds_namespace_mv
  dsimp only
  rw [List.map_map]
  rfl

theorem uuids_ns_rm_mnr (s : Scene) (ns : String) :
    (cmds_namespace_rm_mnr s ns).nodes.map ExtNode.uuid = s.nodes.map ExtNode.uuid := by
  unfold cmds_namespace_rm_mnr
  dsimp only
  rw [List.map_map]
  apply List.map_congr_left
  intro x hx
  by_cases hc : ((ns.data ++ [':']).isPrefixOf x.name.data) = true
  · simp [Function.comp, hc]
  · simp [Function.comp, hc]

theorem uuids_namespaceSet (s : Scene) (n : NodeInst) (v : String) (s1 : Scene)
    (h : Node.namespaceSet s n v = Except.ok s1) :
    s1.nodes.map ExtNode.uuid = s.nodes.map ExtNode.uuid := by
  unfold Node.namespaceSet Node.namespaceGet at h
  cases hfn : Node.fn s n with
  | error err =>
    rw [hfn] at h
    dsimp only at h
    cases h
  | ok e =>
    rw [hfn] at h
    dsimp only at h
    by_cases h1 : (nsOf e.name != "") = true
    · rw [if_pos h1] at h
      by_cases h2 : (v != "") = true
      · rw [if_pos h2] at h
        by_cases h3 : s.namespaces.contains v = true
        · rw [if_pos h3] at h
          cases h
          exact uuids_ns_mv s (nsOf e.name) v
        · rw [if_neg h3] at h
          by_cases h4 : hasColon v = true
          · rw [if_pos h4] at h
            by_cases h5 : s.namespaces.contains (nsOf v) = true
            · rw [if_pos h5] at h
              rw [hfn] at h
              dsimp only at h
              cases h
              exact uuids_ns_ren s (nsOf e.name) (lastComp v) (nsOf v)
            · rw [if_neg h5] at h
              rw [show Node.fn (cmds_namespace_add s (nsOf v)) n = Except.ok e from hfn] at h
              dsimp only at h
              cases h
              rw [uuids_ns_ren (cmds_namespace_add s (nsOf v)) (nsOf e.name) (lastComp v) (nsOf v)]
              rfl
          · rw [if_neg h4] at h
            cases h
            exact uuids_ns_ren s (nsOf e.name) v ""
      · rw [if_neg h2] at h
        cases h
        exact uuids_ns_rm_mnr s (nsOf e.name)
    · rw [if_neg h1] at h
      cases h
      rfl

theorem uuids_cmds_rename (s : Scene) (old new_ : String) (s1 : Scene)
    (h : cmds_rename s old new_ = Except.ok s1) :
    s1.nodes.map ExtNode.uuid = s.nodes.map ExtNode.uuid := by
  unfold cmds_rename at h
  cases hf : findByName s old with
  | none => rw [hf] at h; cases h
  | some e =>
    rw [hf] at h
    dsimp only at h
    cases h
    rw [List.map_map]
    apply List.map_congr_left
    intro x hx
    by_cases hxe : (x == e) = true
    · simp [Function.comp, hxe]
    · simp [Function.comp, hxe]

theorem uuids_renameFinish (s1 : Scene) (n : NodeInst) (v : String) (s2 : Scene)
    (h : renameFinish s1 n v = Except.ok s2) :
    s2.nodes.map ExtNode.uuid = s1.nodes.map ExtNode.uuid := by
  unfold renameFinish at h
  by_cases hv : (v == "") = true
  · rw [if_pos hv] at h
    cases h
  · rw [if_neg hv] at h
    dsimp only at h
    cases hfn : Node.fn s1 n with
    | error err => rw [hfn] at h; cases h
    | ok e2 =>
      rw [hfn] at h
      exact uuids_cmds_rename s1 e2.name _ s2 h

/-- C4: a successful rename changes no uuid in the scene (so the
identity of the wrapper still resolves), the hash of a wrapper is a
function of its identity string alone, and equality of the wrapper
with any other wrapper is a function of class and identity alone, both
untouched by the rename. -/
theorem rename_preserves_identity
    (s s' : Scene) (n : NodeInst) (value : String)
    (h : Node.rename s n value = Except.ok s') :
    s'.nodes.map ExtNode.uuid = s.nodes.map ExtNode.uuid ∧
    (∃ e, e ∈ s'.nodes ∧ e.uuid = n.uuid) ∧
    (∀ x y : NodeInst, x.uuid = y.uuid → Node.hashOf x = Node.hashOf y) ∧
    (∀ m : NodeInst, Node.eq n m = true ↔ n.cls = m.cls ∧ n.uuid = m.uuid) := by
  unfold Node.rename at h
  cases hfn : Node.fn s n with
  | error err => rw [hfn] at h; cases h
  | ok e =>
    rw [hfn] at h
    dsimp only at h
    have hkey : ∀ s1 : Scene, s1.nodes.map ExtNode.uuid = s.nodes.map ExtNode.uuid →
        renameFinish s1 n value = Except.ok s' →
        s'.nodes.map ExtNode.uuid = s.nodes.map ExtNode.uuid := by
      intro s1 hmap hfin
      rw [uuids_renameFinish s1 n value s' hfin, hmap]
    have huuid : s'.nodes.map ExtNode.uuid = s.nodes.map ExtNode.uuid := by
      by_cases h1 : hasColon e.name = true
      · rw [if_pos h1] at h
        by_cases h2 : hasColon value = true
        · rw [if_pos h2] at h
          cases hns : Node.namespaceSet s n (nsOf value) with
          | error err2 => rw [hns] at h; cases h
          | ok s1 =>
            rw [hns] at h
            exact hkey s1 (uuids_namespaceSet s n (nsOf value) s1 hns) h
        · rw [if_neg h2] at h
          cases hns : Node.namespaceSet s n "" with
          | error err2 => rw [hns] at h; cases h
          | ok s1 =>
            rw [hns] at h
            exact hkey s1 (uuids_namespaceSet s n "" s1 hns) h
      · rw [if_neg h1] at h
        exact hkey s rfl h
    refine ⟨huuid, ?_, ?_, ?_⟩
    · have hm := fn_mem s n e hfn
      have hmem : n.uuid ∈ s.nodes.map ExtNode.uuid := List.mem_map.mpr ⟨e, hm.1, hm.2⟩
      rw [← huuid] at hmem
      obtain ⟨e2, he2, heq⟩ := List.mem_map.mp hmem
      exact ⟨e2, he2, heq⟩
    · intro x y hxy
      unfold Node.hashOf
      rw [hxy]
    · intro m
      simp [Node.eq]

/-- Witness for C4: renaming the duck node to goose. -/
theorem rename_preserves_identity_witness :
    (Scene.mk [ExtNode.mk "u0" "goose" "transform" [("system_type", "System")]]
      [] [] [] 1).nodes.map ExtNode.uuid =
      (Scene.mk [ExtNode.mk "u0" "duck" "transform" [("system_type", "System")]]
        [] [] [] 1).nodes.map ExtNode.uuid ∧
    (∃ e, e ∈ (Scene.mk [ExtNode.mk "u0" "goose" "transform" [("system_type", "System")]]
        [] [] [] 1).nodes ∧ e.uuid = (NodeInst.mk SystemCls "u0").uuid) ∧
    (∀ x y : NodeInst, x.uuid = y.uuid → Node.hashOf x = Node.hashOf y) ∧
    (∀ m : NodeInst, Node.eq (NodeInst.mk SystemCls "u0") m = true ↔
      (NodeInst.mk SystemCls "u0").cls = m.cls ∧ (NodeInst.mk SystemCls "u0").uuid = m.uuid) :=
  rename_preserves_identity
    (Scene.mk [ExtNode.mk "u0" "duck" "transform" [("system_type", "System")]] [] [] [] 1)
    (Scene.mk [ExtNode.mk "u0" "goose" "transform" [("system_type", "System")]] [] [] [] 1)
    (NodeInst.mk SystemCls "u0") "goose" rfl
